import Mathlib

/-!
Shallow embedding of the MicroCloud `service` subcommands
(`cmd/microcloud/services.go`): the service-list aggregation
(`cmdServiceList.Run`) and the service-add workflow (`cmdServiceAdd.Run`),
together with theorems about the cross-node validation / delta resolution
logic, the phase ordering of the add workflow, and the best-effort listing
aggregation.
-/

namespace MicroCloud

/-- `types.ServiceType`: the four backend kinds handled by the orchestrator. -/
inductive ServiceType
  | MicroCloud
  | LXD
  | MicroCeph
  | MicroOVN
  deriving DecidableEq, Repr

/-- `service.SystemInformation`, restricted to the field the add workflow
reads: `ExistingServices`, a per-service-type cluster membership
(member name ↦ address), modelled as an association list per type. -/
structure SystemInformation where
  existingServices : ServiceType → List (String × String)

/-- The error message returned at `services.go:321` when a system fails the
LXD-cluster consistency check. -/
def inconsistentClusterError : String :=
  "Unable to add services. Some systems are not part of the LXD cluster"

/-- The error message returned at `services.go:336` when the delta of
missing services is empty. -/
def alreadyConfiguredError : String :=
  "All services have already been set up"

/-- The per-system LXD consistency check, `services.go:320`:
`len(state.ExistingServices[LXD]) != len(localState.ExistingServices[LXD])
 || len(state.ExistingServices[LXD]) <= 0`. -/
def lxdInconsistent (localState st : SystemInformation) : Bool :=
  ((st.existingServices ServiceType.LXD).length
      != (localState.existingServices ServiceType.LXD).length)
    || ((st.existingServices ServiceType.LXD).length == 0)

/-- One conditional insert of `services.go:324-327` (resp. `329-332`): when
system `st` reports an empty membership for `t` and the `serviceMap` flag
for `t` is still unset, append `(t, services[t])` to `askClusteredServices`. -/
def stepAcc (services : ServiceType → String) (t : ServiceType)
    (st : SystemInformation) (acc : List (ServiceType × String)) (flag : Bool) :
    List (ServiceType × String) :=
  if ((st.existingServices t).length == 0) && !flag then acc ++ [(t, services t)]
  else acc

/-- The matching `serviceMap[t] = true` flag update of `services.go:326`
(resp. `331`). -/
def stepFlag (t : ServiceType) (st : SystemInformation) (flag : Bool) : Bool :=
  if ((st.existingServices t).length == 0) && !flag then true else flag

/-- The validation loop of `cmdServiceAdd.Run`, `services.go:318-333`,
iterating over the collected states (the Go `range` over the `cfg.state`
map, made explicit as a list in some iteration order).  `acc` is the
`askClusteredServices` map as its insertion sequence, and `smCeph`/`smOvn`
are the `serviceMap` dedup flags; each iteration first checks the LXD
consistency of the system, then performs the MicroCeph insert, then the
MicroOVN insert. -/
def validateLoop (services : ServiceType → String) (localState : SystemInformation)
    (states : List SystemInformation)
    (acc : List (ServiceType × String)) (smCeph smOvn : Bool) :
    Except String (List (ServiceType × String)) :=
  match states with
  | [] => Except.ok acc
  | st :: rest =>
    if lxdInconsistent localState st then
      Except.error inconsistentClusterError
    else
      validateLoop services localState rest
        (stepAcc services ServiceType.MicroOVN st
          (stepAcc services ServiceType.MicroCeph st acc smCeph) smOvn)
        (stepFlag ServiceType.MicroCeph st smCeph)
        (stepFlag ServiceType.MicroOVN st smOvn)

/-- The validation loop started with the empty `askClusteredServices` map
and cleared `serviceMap` flags, as `cmdServiceAdd.Run` does at
`services.go:316-317`. -/
def resolveDelta (services : ServiceType → String) (localState : SystemInformation)
    (states : List SystemInformation) : Except String (List (ServiceType × String)) :=
  validateLoop services localState states [] false false

/-- Go map read `cfg.state[name]`: the zero-value `SystemInformation`
(all memberships empty) when the key is absent. -/
def stateLookup (m : List (String × SystemInformation)) (n : String) :
    SystemInformation :=
  match m.find? (fun p => p.1 == n) with
  | some p => p.2
  | none => ⟨fun _ => []⟩

/-- The whole validation step of `cmdServiceAdd.Run` on the collected state
map: `localState := cfg.state[s.Name]` (`services.go:319`) followed by the
loop over the map's values. -/
def validateAndDelta (services : ServiceType → String) (localName : String)
    (state : List (String × SystemInformation)) :
    Except String (List (ServiceType × String)) :=
  validateLoop services (stateLookup state localName) (state.map Prod.snd) [] false false

/-- Lookup in the `askClusteredServices` association list: `some version`
when the key is present. -/
def deltaFind (delta : List (ServiceType × String)) (t : ServiceType) :
    Option String :=
  (delta.find? (fun p => p.1 == t)).map Prod.snd

/-- Go map read `askClusteredServices[t]`: the zero value `""` when the key
is absent (`services.go:345` and `services.go:352`). -/
def deltaVersion (delta : List (ServiceType × String)) (t : ServiceType) : String :=
  match deltaFind delta t with
  | some v => v
  | none => ""

/-- Whether some collected state reports an empty membership for type `t`. -/
def anyEmpty (t : ServiceType) (states : List SystemInformation) : Bool :=
  states.any (fun st => (st.existingServices t).length == 0)

/-- Whether some collected state fails the LXD consistency check. -/
def anyBad (localState : SystemInformation) (states : List SystemInformation) : Bool :=
  states.any (lxdInconsistent localState)

/-! ### The add workflow as an event trace

`cmdServiceAdd.Run` (`services.go:285-359`) first collects
`SystemInformation` for the local node and each candidate, then validates,
then invokes the external phases.  We record the observable steps as
events: one `collect` per `CollectSystemInformation` call, and one event
per external phase call. -/

/-- Observable steps of `cmdServiceAdd.Run`: system-information collection
(`services.go:285`, `services.go:308`), the confirmation of the delta
`cfg.askClustered` (`services.go:339`, recording the delta it is handed),
disk setup `cfg.askDisks` (`services.go:346`), network setup
`cfg.askNetwork` (`services.go:353`), and the final cluster join
`cfg.setupCluster` (`services.go:359`). -/
inductive Phase
  | collect (name : String)
  | askClustered (delta : List (ServiceType × String))
  | askDisks
  | askNetwork
  | setupCluster
  deriving DecidableEq, Repr

/-- Outcomes of the external (black-box) phases invoked by the add
workflow; each either succeeds or returns an error that `Run` propagates. -/
structure PhaseOutcomes where
  askClustered : Except String Unit
  askDisks : Except String Unit
  askNetwork : Except String Unit
  setupCluster : Except String Unit

/-- `services.go:359`: `return cfg.setupCluster(s)` — the final join call,
whose error is returned verbatim. -/
def joinStep (ph : PhaseOutcomes) : List Phase × Except String Unit :=
  ([Phase.setupCluster], ph.setupCluster)

/-- `services.go:352-357`: run `cfg.askNetwork` when the delta carries a
non-empty version for MicroOVN, then fall through to the final join. -/
def networkStep (ph : PhaseOutcomes) (delta : List (ServiceType × String)) :
    List Phase × Except String Unit :=
  if deltaVersion delta ServiceType.MicroOVN != "" then
    match ph.askNetwork with
    | Except.error e => ([Phase.askNetwork], Except.error e)
    | Except.ok _ =>
      let (tr, r) := joinStep ph
      (Phase.askNetwork :: tr, r)
  else joinStep ph

/-- `services.go:339-359`: confirmation of the delta, then disk setup when
the delta carries a non-empty version for MicroCeph, then network setup,
then the final join; any phase error aborts the remainder. -/
def phaseRun (ph : PhaseOutcomes) (delta : List (ServiceType × String)) :
    List Phase × Except String Unit :=
  match ph.askClustered with
  | Except.error e => ([Phase.askClustered delta], Except.error e)
  | Except.ok _ =>
    if deltaVersion delta ServiceType.MicroCeph != "" then
      match ph.askDisks with
      | Except.error e => ([Phase.askClustered delta, Phase.askDisks], Except.error e)
      | Except.ok _ =>
        let (tr, r) := networkStep ph delta
        (Phase.askClustered delta :: Phase.askDisks :: tr, r)
    else
      let (tr, r) := networkStep ph delta
      (Phase.askClustered delta :: tr, r)

/-- `services.go:292-301`: the candidate names are the member names of the
local node's MicroCloud membership (`cfg.systems` is keyed by name, so
duplicates collapse), and `services.go:303-306` skips the empty name and
the local node itself. -/
def candidateNames (localName : String) (localInfo : SystemInformation) : List String :=
  (((localInfo.existingServices ServiceType.MicroCloud).map Prod.fst).dedup).filter
    (fun n => (n != "") && (n != localName))

/-- `services.go:303-314`: collect `SystemInformation` for each candidate
in turn, storing it under the candidate's name; a collection error aborts
the run.  Returns the emitted collect events and the collected entries. -/
def collectLoop (collect : String → Except String SystemInformation)
    (names : List String) :
    List Phase × Except String (List (String × SystemInformation)) :=
  match names with
  | [] => ([], Except.ok [])
  | n :: rest =>
    match collect n with
    | Except.error e => ([Phase.collect n], Except.error e)
    | Except.ok info =>
      let (tr, res) := collectLoop collect rest
      (Phase.collect n :: tr, res.map (fun l => (n, info) :: l))

/-- `cmdServiceAdd.Run` from `services.go:285` on: collect the local
node's state and store it under the local name, collect every candidate's
state, validate the collected map and compute the delta of missing
services, fail when the delta is empty, and otherwise run the external
phases on the delta.  `collect` abstracts `s.CollectSystemInformation`
(one call per node), `ph` the external phases. -/
def runServiceAdd (services : ServiceType → String) (localName : String)
    (collect : String → Except String SystemInformation) (ph : PhaseOutcomes) :
    List Phase × Except String Unit :=
  match collect localName with
  | Except.error e => ([Phase.collect localName], Except.error e)
  | Except.ok localInfo =>
    let (ctr, cres) := collectLoop collect (candidateNames localName localInfo)
    match cres with
    | Except.error e => (Phase.collect localName :: ctr, Except.error e)
    | Except.ok candState =>
      let state := (localName, localInfo) :: candState
      match validateAndDelta services localName state with
      | Except.error e => (Phase.collect localName :: ctr, Except.error e)
      | Except.ok delta =>
        if delta.length == 0 then
          (Phase.collect localName :: ctr, Except.error alreadyConfiguredError)
        else
          let (ptr, pres) := phaseRun ph delta
          (Phase.collect localName :: ctr ++ ptr, pres)

/-! ### The listing workflow's best-effort aggregation

`cmdServiceList.Run` (`services.go:118-184`) fans out one task per
service; for a microcluster-backed service the task queries the cluster
members (`services.go:142`), tolerates a 503 status error
(`services.go:143`), builds one display row per member
(`services.go:147-154`), and stores the rows in the shared `allClusters`
map under the service's type (`services.go:176-178`). -/

/-- A cluster member as the listing renders it
(`clusterMember.Name/Address/Role/Status`). -/
structure ClusterMember where
  name : String
  address : String
  role : String
  status : String
  deriving DecidableEq, Repr

/-- An error from a membership query; `statusCode` is `some c` when the
error is an API status error with code `c` (`lxdAPI.StatusError`). -/
structure QueryError where
  statusCode : Option Nat
  msg : String
  deriving DecidableEq, Repr

/-- `lxdAPI.StatusErrorCheck(err, code)`: whether the error is a status
error with the given status code. -/
def statusErrorCheck (e : QueryError) (code : Nat) : Bool :=
  e.statusCode == some code

/-- HTTP 503, `http.StatusServiceUnavailable`. -/
def statusServiceUnavailable : Nat := 503

/-- `services.go:150`: the display row for one cluster member. -/
def memberRow (m : ClusterMember) : List String :=
  [m.name, m.address, m.role, m.status]

/-- The microcluster branch of the listing task, `services.go:141-154`:
a failed `GetClusterMembers` aborts the task unless the error is a 503
status error; on the 503 path the member list is nil, so the data stays
empty.  Row order within a non-empty result is a display concern (the
in-place `SortColumnsNaturally` from the external cli library) and is
modelled as query order. -/
def serviceTask (q : Except QueryError (List ClusterMember)) :
    Except QueryError (List (List String)) :=
  match q with
  | Except.error e =>
    if !statusErrorCheck e statusServiceUnavailable then Except.error e
    else Except.ok []
  | Except.ok clusterMembers =>
    if clusterMembers.length != 0 then Except.ok (clusterMembers.map memberRow)
    else Except.ok []

/-- The fan-out over services of `cmdServiceList.Run` with its result map:
each task stores its rows under its service type (the mutex-guarded
`allClusters[s.Type()] = data` write), and any task error makes the
aggregate `RunConcurrent` call return an error (`services.go:182-184`). -/
def listAggregate (tasks : List (ServiceType × Except QueryError (List ClusterMember))) :
    Except QueryError (List (ServiceType × List (List String))) :=
  match tasks with
  | [] => Except.ok []
  | (t, q) :: rest =>
    match serviceTask q with
    | Except.error e => Except.error e
    | Except.ok data =>
      match listAggregate rest with
      | Except.error e => Except.error e
      | Except.ok m => Except.ok ((t, data) :: m)

/-! ### Observational equivalence of validation outcomes, and fixtures -/

/-- Two validation outcomes are observationally equal: both fail with the
same error, or both succeed with deltas that agree as mappings
(ServiceType ↦ version), irrespective of entry order. -/
def deltaEquiv : Except String (List (ServiceType × String))
    → Except String (List (ServiceType × String)) → Prop
  | Except.error e1, Except.error e2 => e1 = e2
  | Except.ok d1, Except.ok d2 => ∀ t, deltaFind d1 t = deltaFind d2 t
  | _, _ => False

/-- A membership-query outcome the best-effort listing tolerates: success,
or a failure whose error is a 503 (service unavailable) status error. -/
def queryTolerated (q : Except QueryError (List ClusterMember)) : Prop :=
  match q with
  | Except.ok _ => True
  | Except.error e => statusErrorCheck e statusServiceUnavailable = true

/-- Concrete version map used by the witness theorems. -/
def exServices : ServiceType → String
  | ServiceType.MicroCloud => "1.1"
  | ServiceType.LXD => "5.21"
  | ServiceType.MicroCeph => "18.2"
  | ServiceType.MicroOVN => "24.03"

/-- Concrete three-node membership used by the witness theorems. -/
def exMembers : List (String × String) :=
  [("a", "10.0.0.1"), ("b", "10.0.0.2"), ("c", "10.0.0.3")]

/-- Concrete `SystemInformation` with the given LXD, MicroCeph and
MicroOVN memberships and a three-node MicroCloud membership. -/
def exInfo (lxd ceph ovn : List (String × String)) : SystemInformation :=
  ⟨fun t => match t with
    | ServiceType.LXD => lxd
    | ServiceType.MicroCloud => exMembers
    | ServiceType.MicroCeph => ceph
    | ServiceType.MicroOVN => ovn⟩

/-! ### Helper lemmas about delta lookups -/

lemma deltaFind_append (acc l : List (ServiceType × String)) (t : ServiceType) :
    deltaFind (acc ++ l) t = (deltaFind acc t).or (deltaFind l t) := by
  unfold deltaFind
  rw [List.find?_append]
  cases acc.find? (fun p => p.1 == t) <;> simp

lemma deltaFind_single_ne (s t : ServiceType) (v : String) (h : s ≠ t) :
    deltaFind [(s, v)] t = none := by
  have hb : (s == t) = false := by simp [h]
  simp [deltaFind, List.find?, hb]

lemma deltaFind_single_self (t : ServiceType) (v : String) :
    deltaFind [(t, v)] t = some v := by
  simp [deltaFind, List.find?]

lemma deltaFind_append_single_ne (acc : List (ServiceType × String))
    (s t : ServiceType) (v : String) (h : s ≠ t) :
    deltaFind (acc ++ [(s, v)]) t = deltaFind acc t := by
  rw [deltaFind_append, deltaFind_single_ne s t v h]
  cases deltaFind acc t <;> simp

lemma deltaFind_append_single_self (acc : List (ServiceType × String))
    (t : ServiceType) (v : String) (h : deltaFind acc t = none) :
    deltaFind (acc ++ [(t, v)]) t = some v := by
  rw [deltaFind_append, h, deltaFind_single_self]
  simp

lemma deltaFind_eq_none_iff (delta : List (ServiceType × String)) (t : ServiceType) :
    deltaFind delta t = none ↔ t ∉ delta.map Prod.fst := by
  unfold deltaFind
  rw [Option.map_eq_none', List.find?_eq_none]
  simp [List.mem_map]
  constructor
  · intro h p hp
    exact h t p hp rfl
  · intro h a b hab hat
    subst hat
    exact h b hab

lemma mem_keys_iff_deltaFind_ne_none (delta : List (ServiceType × String))
    (t : ServiceType) :
    t ∈ delta.map Prod.fst ↔ deltaFind delta t ≠ none := by
  rw [Ne, deltaFind_eq_none_iff, not_not]

lemma nodupKeys_append_single (acc : List (ServiceType × String))
    (t : ServiceType) (v : String) (h : deltaFind acc t = none)
    (hn : (acc.map Prod.fst).Nodup) :
    ((acc ++ [(t, v)]).map Prod.fst).Nodup := by
  rw [List.map_append, List.nodup_append]
  refine ⟨hn, by simp, ?_⟩
  intro x hx hx'
  simp at hx'
  rw [hx'] at hx
  exact (deltaFind_eq_none_iff acc t).mp h hx

/-! ### Step lemmas for the validation loop -/

lemma stepFlag_eq (t : ServiceType) (st : SystemInformation) (flag : Bool) :
    stepFlag t st flag = (flag || ((st.existingServices t).length == 0)) := by
  unfold stepFlag
  cases flag <;> cases h : ((st.existingServices t).length == 0) <;> simp [h]

lemma stepAcc_flag_true (services : ServiceType → String) (t : ServiceType)
    (st : SystemInformation) (acc : List (ServiceType × String)) :
    stepAcc services t st acc true = acc := by
  simp [stepAcc]

lemma stepAcc_false_empty (services : ServiceType → String) (t : ServiceType)
    (st : SystemInformation) (acc : List (ServiceType × String))
    (he : ((st.existingServices t).length == 0) = true) :
    stepAcc services t st acc false = acc ++ [(t, services t)] := by
  simp [stepAcc, he]

lemma stepAcc_false_nonempty (services : ServiceType → String) (t : ServiceType)
    (st : SystemInformation) (acc : List (ServiceType × String)) (flag : Bool)
    (he : ((st.existingServices t).length == 0) = false) :
    stepAcc services t st acc flag = acc := by
  simp [stepAcc, he]

lemma deltaFind_stepAcc_ne (services : ServiceType → String) (t : ServiceType)
    (st : SystemInformation) (acc : List (ServiceType × String)) (flag : Bool)
    (t' : ServiceType) (h : t ≠ t') :
    deltaFind (stepAcc services t st acc flag) t' = deltaFind acc t' := by
  unfold stepAcc
  split
  · exact deltaFind_append_single_ne acc t t' (services t) h
  · rfl

lemma mem_stepAcc (services : ServiceType → String) (t : ServiceType)
    (st : SystemInformation) (acc : List (ServiceType × String)) (flag : Bool)
    (p : ServiceType × String) (hp : p ∈ stepAcc services t st acc flag) :
    p ∈ acc ∨ (p.1 = t ∧ p.2 = services p.1) := by
  unfold stepAcc at hp
  split at hp
  · rcases List.mem_append.mp hp with h | h
    · exact Or.inl h
    · simp at h
      rw [h]
      exact Or.inr ⟨rfl, rfl⟩
  · exact Or.inl hp

lemma nodup_stepAcc (services : ServiceType → String) (t : ServiceType)
    (st : SystemInformation) (acc : List (ServiceType × String)) (flag : Bool)
    (hf : flag = false → deltaFind acc t = none)
    (hn : (acc.map Prod.fst).Nodup) :
    ((stepAcc services t st acc flag).map Prod.fst).Nodup := by
  unfold stepAcc
  split
  case isTrue h =>
    have hflag : flag = false := by
      cases flag
      · rfl
      · simp at h
    exact nodupKeys_append_single acc t (services t) (hf hflag) hn
  case isFalse h => exact hn

/-- Characterization of the validation loop: it fails with the
inconsistent-cluster error exactly when some state fails the LXD check,
and otherwise returns a delta whose MicroCeph / MicroOVN entries are
determined by whether some state reports an empty membership for that
type, whose every new entry carries the service's version, whose keys stay
duplicate-free, and which touches no other key. -/
lemma validateLoop_char (services : ServiceType → String) (localState : SystemInformation)
    (states : List SystemInformation) :
    ∀ (acc : List (ServiceType × String)) (sc so : Bool),
    (sc = false → deltaFind acc ServiceType.MicroCeph = none) →
    (so = false → deltaFind acc ServiceType.MicroOVN = none) →
    (anyBad localState states = true →
      validateLoop services localState states acc sc so
        = Except.error inconsistentClusterError)
    ∧ (anyBad localState states = false →
      ∃ d, validateLoop services localState states acc sc so = Except.ok d
        ∧ deltaFind d ServiceType.MicroCeph
            = (if sc then deltaFind acc ServiceType.MicroCeph
               else if anyEmpty ServiceType.MicroCeph states then
                 some (services ServiceType.MicroCeph)
               else none)
        ∧ deltaFind d ServiceType.MicroOVN
            = (if so then deltaFind acc ServiceType.MicroOVN
               else if anyEmpty ServiceType.MicroOVN states then
                 some (services ServiceType.MicroOVN)
               else none)
        ∧ (∀ p ∈ d, p ∈ acc
            ∨ ((p.1 = ServiceType.MicroCeph ∨ p.1 = ServiceType.MicroOVN)
                ∧ p.2 = services p.1))
        ∧ ((acc.map Prod.fst).Nodup → (d.map Prod.fst).Nodup)
        ∧ (∀ t, t ≠ ServiceType.MicroCeph → t ≠ ServiceType.MicroOVN →
            deltaFind d t = deltaFind acc t)) := by
  induction states with
  | nil =>
    intro acc sc so hc ho
    constructor
    · intro h
      simp [anyBad] at h
    · intro _
      refine ⟨acc, rfl, ?_, ?_, fun p hp => Or.inl hp, fun hn => hn, fun t _ _ => rfl⟩
      · cases sc
        · simp [anyEmpty, hc rfl]
        · simp
      · cases so
        · simp [anyEmpty, ho rfl]
        · simp
  | cons st rest ih =>
    intro acc sc so hc ho
    by_cases hbad : lxdInconsistent localState st = true
    · constructor
      · intro _
        simp [validateLoop, hbad]
      · intro h
        simp [anyBad, hbad] at h
    · have hbad' : lxdInconsistent localState st = false := Bool.eq_false_iff.mpr hbad
      have hred : validateLoop services localState (st :: rest) acc sc so
          = validateLoop services localState rest
              (stepAcc services ServiceType.MicroOVN st
                (stepAcc services ServiceType.MicroCeph st acc sc) so)
              (stepFlag ServiceType.MicroCeph st sc)
              (stepFlag ServiceType.MicroOVN st so) := by
        simp [validateLoop, hbad']
      have hcN : stepFlag ServiceType.MicroCeph st sc = false →
          deltaFind (stepAcc services ServiceType.MicroOVN st
            (stepAcc services ServiceType.MicroCeph st acc sc) so)
            ServiceType.MicroCeph = none := by
        intro hf
        rw [stepFlag_eq] at hf
        have hsc : sc = false := by
          cases sc
          · rfl
          · simp at hf
        have hce : ((st.existingServices ServiceType.MicroCeph).length == 0) = false := by
          cases hcase : ((st.existingServices ServiceType.MicroCeph).length == 0)
          · rfl
          · rw [hsc, hcase] at hf
            simp at hf
        rw [deltaFind_stepAcc_ne _ _ _ _ _ _ (by decide), hsc,
          stepAcc_false_nonempty _ _ _ _ _ hce]
        exact hc hsc
      have hoN : stepFlag ServiceType.MicroOVN st so = false →
          deltaFind (stepAcc services ServiceType.MicroOVN st
            (stepAcc services ServiceType.MicroCeph st acc sc) so)
            ServiceType.MicroOVN = none := by
        intro hf
        rw [stepFlag_eq] at hf
        have hso : so = false := by
          cases so
          · rfl
          · simp at hf
        have hoe : ((st.existingServices ServiceType.MicroOVN).length == 0) = false := by
          cases hcase : ((st.existingServices ServiceType.MicroOVN).length == 0)
          · rfl
          · rw [hso, hcase] at hf
            simp at hf
        rw [stepAcc_false_nonempty _ _ _ _ _ hoe,
          deltaFind_stepAcc_ne _ _ _ _ _ _ (by decide)]
        exact ho hso
      obtain ⟨ihErr, ihOk⟩ :=
        ih (stepAcc services ServiceType.MicroOVN st
              (stepAcc services ServiceType.MicroCeph st acc sc) so)
          (stepFlag ServiceType.MicroCeph st sc) (stepFlag ServiceType.MicroOVN st so)
          hcN hoN
      constructor
      · intro h
        have hrest : anyBad localState rest = true := by
          simpa [anyBad, hbad'] using h
        rw [hred]
        exact ihErr hrest
      · intro h
        have hrest : anyBad localState rest = false := by
          simpa [anyBad, hbad'] using h
        obtain ⟨d, hd, hdc, hdo, hmem, hnodup, hother⟩ := ihOk hrest
        refine ⟨d, hred ▸ hd, ?_, ?_, ?_, ?_, ?_⟩
        · rw [hdc]
          have hstep : anyEmpty ServiceType.MicroCeph (st :: rest)
              = (((st.existingServices ServiceType.MicroCeph).length == 0)
                 || anyEmpty ServiceType.MicroCeph rest) := by
            simp [anyEmpty]
          cases hsc : sc
          · cases hce : ((st.existingServices ServiceType.MicroCeph).length == 0)
            · rw [stepFlag_eq, hce, hstep, hce]
              have heq : deltaFind (stepAcc services ServiceType.MicroOVN st
                  (stepAcc services ServiceType.MicroCeph st acc false) so)
                  ServiceType.MicroCeph = deltaFind acc ServiceType.MicroCeph := by
                rw [deltaFind_stepAcc_ne _ _ _ _ _ _ (by decide),
                  stepAcc_false_nonempty _ _ _ _ _ hce]
              simp [heq]
            · rw [stepFlag_eq, hce, hstep, hce]
              have heq : deltaFind (stepAcc services ServiceType.MicroOVN st
                  (stepAcc services ServiceType.MicroCeph st acc false) so)
                  ServiceType.MicroCeph = some (services ServiceType.MicroCeph) := by
                rw [deltaFind_stepAcc_ne _ _ _ _ _ _ (by decide),
                  stepAcc_false_empty _ _ _ _ hce]
                exact deltaFind_append_single_self acc _ _ (hc hsc)
              simp [heq]
          · rw [stepFlag_eq]
            have heq : deltaFind (stepAcc services ServiceType.MicroOVN st
                (stepAcc services ServiceType.MicroCeph st acc true) so)
                ServiceType.MicroCeph = deltaFind acc ServiceType.MicroCeph := by
              rw [deltaFind_stepAcc_ne _ _ _ _ _ _ (by decide), stepAcc_flag_true]
            simp [heq]
        · rw [hdo]
          have hstep : anyEmpty ServiceType.MicroOVN (st :: rest)
              = (((st.existingServices ServiceType.MicroOVN).length == 0)
                 || anyEmpty ServiceType.MicroOVN rest) := by
            simp [anyEmpty]
          have hacc : deltaFind (stepAcc services ServiceType.MicroCeph st acc sc)
              ServiceType.MicroOVN = deltaFind acc ServiceType.MicroOVN :=
            deltaFind_stepAcc_ne _ _ _ _ _ _ (by decide)
          cases hso : so
          · cases hoe : ((st.existingServices ServiceType.MicroOVN).length == 0)
            · rw [stepFlag_eq, hoe, hstep, hoe]
              have heq : deltaFind (stepAcc services ServiceType.MicroOVN st
                  (stepAcc services ServiceType.MicroCeph st acc sc) false)
                  ServiceType.MicroOVN = deltaFind acc ServiceType.MicroOVN := by
                rw [stepAcc_false_nonempty _ _ _ _ _ hoe]
                exact hacc
              simp [heq]
            · rw [stepFlag_eq, hoe, hstep, hoe]
              have heq : deltaFind (stepAcc services ServiceType.MicroOVN st
                  (stepAcc services ServiceType.MicroCeph st acc sc) false)
                  ServiceType.MicroOVN = some (services ServiceType.MicroOVN) := by
                rw [stepAcc_false_empty _ _ _ _ hoe]
                refine deltaFind_append_single_self _ _ _ ?_
                rw [hacc]
                exact ho hso
              simp [heq]
          · rw [stepFlag_eq]
            have heq : deltaFind (stepAcc services ServiceType.MicroOVN st
                (stepAcc services ServiceType.MicroCeph st acc sc) true)
                ServiceType.MicroOVN = deltaFind acc ServiceType.MicroOVN := by
              rw [stepAcc_flag_true]
              exact hacc
            simp [heq]
        · intro p hp
          rcases hmem p hp with hpacc | hnice
          · rcases mem_stepAcc _ _ _ _ _ p hpacc with hpaccC | hovn
            · rcases mem_stepAcc _ _ _ _ _ p hpaccC with hpa | hceph
              · exact Or.inl hpa
              · exact Or.inr ⟨Or.inl hceph.1, hceph.2⟩
            · exact Or.inr ⟨Or.inr hovn.1, hovn.2⟩
          · exact Or.inr hnice
        · intro hn
          apply hnodup
          refine nodup_stepAcc _ _ _ _ _ ?_ (nodup_stepAcc _ _ _ _ _ hc hn)
          intro hso
          rw [deltaFind_stepAcc_ne _ _ _ _ _ _ (by decide)]
          exact ho hso
        · intro t htc hto
          rw [hother t htc hto, deltaFind_stepAcc_ne _ _ _ _ _ _ (Ne.symm hto),
            deltaFind_stepAcc_ne _ _ _ _ _ _ (Ne.symm htc)]

lemma anyEmpty_iff (t : ServiceType) (states : List SystemInformation) :
    anyEmpty t states = true ↔ ∃ st ∈ states, (st.existingServices t).length = 0 := by
  simp [anyEmpty, List.any_eq_true]

lemma anyBad_iff (ls : SystemInformation) (states : List SystemInformation) :
    anyBad ls states = true ↔ ∃ st ∈ states, lxdInconsistent ls st = true := by
  simp [anyBad, List.any_eq_true]

lemma lxdInconsistent_iff (ls st : SystemInformation) :
    lxdInconsistent ls st = true ↔
      ((st.existingServices ServiceType.LXD).length
          ≠ (ls.existingServices ServiceType.LXD).length
        ∨ (st.existingServices ServiceType.LXD).length = 0) := by
  simp [lxdInconsistent]

/-- The validation step fails with the inconsistent-cluster error whenever
some collected state fails the LXD consistency check. -/
lemma validateAndDelta_error_of_bad (services : ServiceType → String)
    (localName : String) (state : List (String × SystemInformation))
    (h : anyBad (stateLookup state localName) (state.map Prod.snd) = true) :
    validateAndDelta services localName state
      = Except.error inconsistentClusterError :=
  (validateLoop_char services (stateLookup state localName) (state.map Prod.snd)
    [] false false (fun _ => rfl) (fun _ => rfl)).1 h

/-- When every collected state passes the LXD consistency check, the
validation step returns a delta characterized by which states report an
empty MicroCeph / MicroOVN membership. -/
lemma validateAndDelta_ok_char (services : ServiceType → String)
    (localName : String) (state : List (String × SystemInformation))
    (h : anyBad (stateLookup state localName) (state.map Prod.snd) = false) :
    ∃ d, validateAndDelta services localName state = Except.ok d
      ∧ deltaFind d ServiceType.MicroCeph
          = (if anyEmpty ServiceType.MicroCeph (state.map Prod.snd) then
              some (services ServiceType.MicroCeph)
             else none)
      ∧ deltaFind d ServiceType.MicroOVN
          = (if anyEmpty ServiceType.MicroOVN (state.map Prod.snd) then
              some (services ServiceType.MicroOVN)
             else none)
      ∧ (∀ p ∈ d, (p.1 = ServiceType.MicroCeph ∨ p.1 = ServiceType.MicroOVN)
          ∧ p.2 = services p.1)
      ∧ (d.map Prod.fst).Nodup := by
  obtain ⟨d, hd, hdc, hdo, hmem, hnodup, -⟩ :=
    (validateLoop_char services (stateLookup state localName) (state.map Prod.snd)
      [] false false (fun _ => rfl) (fun _ => rfl)).2 h
  refine ⟨d, hd, by simpa using hdc, by simpa using hdo, ?_, hnodup List.nodup_nil⟩
  intro p hp
  rcases hmem p hp with hfalse | hnice
  · exact absurd hfalse (List.not_mem_nil p)
  · exact hnice

/-- A successful validation step implies every collected state passed the
LXD consistency check. -/
lemma validateAndDelta_ok_anyBad_false (services : ServiceType → String)
    (localName : String) (state : List (String × SystemInformation))
    (d : List (ServiceType × String))
    (h : validateAndDelta services localName state = Except.ok d) :
    anyBad (stateLookup state localName) (state.map Prod.snd) = false := by
  cases hb : anyBad (stateLookup state localName) (state.map Prod.snd)
  · rfl
  · rw [validateAndDelta_error_of_bad services localName state hb] at h
    exact absurd h (by simp)

/-! ### Trace lemmas for collection and the external phases -/

lemma collectLoop_trace_collect (collect : String → Except String SystemInformation)
    (names : List String) :
    ∀ e ∈ (collectLoop collect names).1, ∃ n, e = Phase.collect n := by
  induction names with
  | nil =>
    intro e he
    simp [collectLoop] at he
  | cons n rest ih =>
    intro e he
    cases hcn : collect n with
    | error err =>
      simp [collectLoop, hcn] at he
      exact ⟨n, he⟩
    | ok info =>
      cases hrec : collectLoop collect rest with
      | mk tr res =>
        simp [collectLoop, hcn, hrec] at he
        rcases he with he | he
        · exact ⟨n, he⟩
        · exact ih e (by rw [hrec]; exact he)

lemma collectLoop_ok_mem (collect : String → Except String SystemInformation)
    (names : List String) (tr : List Phase)
    (st : List (String × SystemInformation))
    (h : collectLoop collect names = (tr, Except.ok st)) :
    ∀ n ∈ names, ∃ info, collect n = Except.ok info ∧ (n, info) ∈ st := by
  induction names generalizing tr st with
  | nil =>
    intro n hn
    exact absurd hn (List.not_mem_nil n)
  | cons m rest ih =>
    intro n hn
    cases hcm : collect m with
    | error err =>
      rw [collectLoop, hcm] at h
      simp at h
    | ok info =>
      cases hrec : collectLoop collect rest with
      | mk tr' res' =>
        rw [collectLoop, hcm, hrec] at h
        cases res' with
        | error err => simp [Except.map] at h
        | ok st' =>
          simp [Except.map] at h
          obtain ⟨-, hst⟩ := h
          rcases List.mem_cons.mp hn with hnm | hnr
          · subst hnm
            exact ⟨info, hcm, by rw [← hst]; exact List.mem_cons_self _ _⟩
          · obtain ⟨i, hi, hmem⟩ := ih tr' st' hrec n hnr
            exact ⟨i, hi, by rw [← hst]; exact List.mem_cons_of_mem _ hmem⟩

lemma networkStep_trace_pos (pac pad pan psc : Except String Unit)
    (delta : List (ServiceType × String))
    (hv : (deltaVersion delta ServiceType.MicroOVN != "") = true) :
    (networkStep ⟨pac, pad, pan, psc⟩ delta).1 = [Phase.askNetwork]
    ∨ (networkStep ⟨pac, pad, pan, psc⟩ delta).1
        = [Phase.askNetwork, Phase.setupCluster] := by
  unfold networkStep joinStep
  rw [if_pos hv]
  cases pan with
  | error e => exact Or.inl rfl
  | ok u => exact Or.inr rfl

lemma networkStep_trace_neg (pac pad pan psc : Except String Unit)
    (delta : List (ServiceType × String))
    (hv : ¬(deltaVersion delta ServiceType.MicroOVN != "") = true) :
    (networkStep ⟨pac, pad, pan, psc⟩ delta).1 = [Phase.setupCluster] := by
  unfold networkStep joinStep
  rw [if_neg hv]

lemma networkStep_trace_cases (ph : PhaseOutcomes)
    (delta : List (ServiceType × String)) :
    (networkStep ph delta).1 = [Phase.askNetwork]
    ∨ (networkStep ph delta).1 = [Phase.askNetwork, Phase.setupCluster]
    ∨ (networkStep ph delta).1 = [Phase.setupCluster] := by
  obtain ⟨pac, pad, pan, psc⟩ := ph
  by_cases hv : (deltaVersion delta ServiceType.MicroOVN != "") = true
  · rcases networkStep_trace_pos pac pad pan psc delta hv with h | h
    · exact Or.inl h
    · exact Or.inr (Or.inl h)
  · exact Or.inr (Or.inr (networkStep_trace_neg pac pad pan psc delta hv))

lemma phaseRun_trace_cases (ph : PhaseOutcomes)
    (delta : List (ServiceType × String)) :
    (phaseRun ph delta).1 = [Phase.askClustered delta]
    ∨ (phaseRun ph delta).1 = [Phase.askClustered delta, Phase.askDisks]
    ∨ (phaseRun ph delta).1
        = Phase.askClustered delta :: Phase.askDisks :: (networkStep ph delta).1
    ∨ (phaseRun ph delta).1
        = Phase.askClustered delta :: (networkStep ph delta).1 := by
  obtain ⟨pac, pad, pan, psc⟩ := ph
  unfold phaseRun
  cases pac with
  | error e => exact Or.inl rfl
  | ok u =>
    by_cases hv : (deltaVersion delta ServiceType.MicroCeph != "") = true
    · rw [if_pos hv]
      cases pad with
      | error e => exact Or.inr (Or.inl rfl)
      | ok u2 =>
        refine Or.inr (Or.inr (Or.inl ?_))
        cases hns : networkStep ⟨Except.ok u, Except.ok u2, pan, psc⟩ delta with
        | mk ntr nr => rfl
    · rw [if_neg hv]
      refine Or.inr (Or.inr (Or.inr ?_))
      cases hns : networkStep ⟨Except.ok u, pad, pan, psc⟩ delta with
      | mk ntr nr => rfl

lemma networkStep_trace_sublist (ph : PhaseOutcomes)
    (delta : List (ServiceType × String)) :
    ((networkStep ph delta).1).Sublist [Phase.askNetwork, Phase.setupCluster] := by
  rcases networkStep_trace_cases ph delta with h | h | h <;> rw [h] <;> simp

lemma phaseRun_trace_sublist (ph : PhaseOutcomes)
    (delta : List (ServiceType × String)) :
    ((phaseRun ph delta).1).Sublist
      [Phase.askClustered delta, Phase.askDisks, Phase.askNetwork,
        Phase.setupCluster] := by
  rcases phaseRun_trace_cases ph delta with h | h | h | h <;> rw [h] <;>
    rcases networkStep_trace_cases ph delta with hn | hn | hn <;>
      try rw [hn]
  all_goals simp [List.cons_sublist_cons]

lemma phaseRun_trace_head (ph : PhaseOutcomes)
    (delta : List (ServiceType × String)) :
    ((phaseRun ph delta).1).head? = some (Phase.askClustered delta) := by
  rcases phaseRun_trace_cases ph delta with h | h | h | h <;> rw [h] <;> rfl

lemma phaseRun_no_collect (ph : PhaseOutcomes)
    (delta : List (ServiceType × String)) :
    ∀ e ∈ (phaseRun ph delta).1, ∀ n, e ≠ Phase.collect n := by
  intro e he n
  have hmem := (phaseRun_trace_sublist ph delta).subset he
  simp at hmem
  rcases hmem with h | h | h | h <;> subst h <;> simp

lemma phaseRun_trace_full (ph : PhaseOutcomes)
    (delta : List (ServiceType × String))
    (hac : ph.askClustered = Except.ok ()) (had : ph.askDisks = Except.ok ())
    (han : ph.askNetwork = Except.ok ())
    (hcv : (deltaVersion delta ServiceType.MicroCeph != "") = true)
    (hov : (deltaVersion delta ServiceType.MicroOVN != "") = true) :
    (phaseRun ph delta).1
      = [Phase.askClustered delta, Phase.askDisks, Phase.askNetwork,
          Phase.setupCluster] := by
  obtain ⟨pac, pad, pan, psc⟩ := ph
  simp at hac had han
  subst hac had han
  unfold phaseRun networkStep joinStep
  rw [if_pos hcv, if_pos hov]

lemma networkStep_askNetwork_mem (ph : PhaseOutcomes)
    (delta : List (ServiceType × String)) :
    (Phase.askNetwork ∈ (networkStep ph delta).1
      ↔ (deltaVersion delta ServiceType.MicroOVN != "") = true) := by
  obtain ⟨pac, pad, pan, psc⟩ := ph
  by_cases hv : (deltaVersion delta ServiceType.MicroOVN != "") = true
  · rcases networkStep_trace_pos pac pad pan psc delta hv with h | h <;>
      rw [h] <;> simp [hv]
  · rw [networkStep_trace_neg pac pad pan psc delta hv]
    simp [hv]

lemma networkStep_no_askDisks (ph : PhaseOutcomes)
    (delta : List (ServiceType × String)) :
    Phase.askDisks ∉ (networkStep ph delta).1 := by
  rcases networkStep_trace_cases ph delta with h | h | h <;> rw [h] <;> simp

/-! ### Reduction lemmas for the add workflow under given collection results -/

lemma runServiceAdd_validate_error (services : ServiceType → String)
    (localName : String) (collect : String → Except String SystemInformation)
    (ph : PhaseOutcomes) (localInfo : SystemInformation) (ctr : List Phase)
    (candState : List (String × SystemInformation)) (e : String)
    (h1 : collect localName = Except.ok localInfo)
    (h2 : collectLoop collect (candidateNames localName localInfo)
            = (ctr, Except.ok candState))
    (h3 : validateAndDelta services localName ((localName, localInfo) :: candState)
            = Except.error e) :
    runServiceAdd services localName collect ph
      = (Phase.collect localName :: ctr, Except.error e) := by
  simp [runServiceAdd, h1, h2, h3]

lemma runServiceAdd_empty_delta (services : ServiceType → String)
    (localName : String) (collect : String → Except String SystemInformation)
    (ph : PhaseOutcomes) (localInfo : SystemInformation) (ctr : List Phase)
    (candState : List (String × SystemInformation))
    (h1 : collect localName = Except.ok localInfo)
    (h2 : collectLoop collect (candidateNames localName localInfo)
            = (ctr, Except.ok candState))
    (h3 : validateAndDelta services localName ((localName, localInfo) :: candState)
            = Except.ok []) :
    runServiceAdd services localName collect ph
      = (Phase.collect localName :: ctr, Except.error alreadyConfiguredError) := by
  simp [runServiceAdd, h1, h2, h3]

lemma runServiceAdd_phases (services : ServiceType → String)
    (localName : String) (collect : String → Except String SystemInformation)
    (ph : PhaseOutcomes) (localInfo : SystemInformation) (ctr : List Phase)
    (candState : List (String × SystemInformation))
    (delta : List (ServiceType × String))
    (h1 : collect localName = Except.ok localInfo)
    (h2 : collectLoop collect (candidateNames localName localInfo)
            = (ctr, Except.ok candState))
    (h3 : validateAndDelta services localName ((localName, localInfo) :: candState)
            = Except.ok delta)
    (hne : delta ≠ []) :
    runServiceAdd services localName collect ph
      = (Phase.collect localName :: ctr ++ (phaseRun ph delta).1,
          (phaseRun ph delta).2) := by
  have hlen : (delta.length == 0) = false := by
    cases delta with
    | nil => exact absurd rfl hne
    | cons p rest => rfl
  cases hpr : phaseRun ph delta with
  | mk ptr pres => simp [runServiceAdd, h1, h2, h3, hlen, hpr]

/-! ### Lemmas about the listing task -/

lemma serviceTask_tolerated (q : Except QueryError (List ClusterMember))
    (h : queryTolerated q) :
    ∃ data, serviceTask q = Except.ok data
      ∧ ∀ e, q = Except.error e → data = [] := by
  cases q with
  | error e =>
    refine ⟨[], ?_, fun _ _ => rfl⟩
    have h503 : statusErrorCheck e statusServiceUnavailable = true := h
    simp [serviceTask, h503]
  | ok members =>
    by_cases hlen : (members.length != 0) = true
    · exact ⟨members.map memberRow, by simp [serviceTask, hlen], fun e he => by cases he⟩
    · exact ⟨[], by simp [serviceTask, hlen], fun e he => by cases he⟩

lemma serviceTask_error_not503 (q : Except QueryError (List ClusterMember))
    (e : QueryError) (h : serviceTask q = Except.error e) :
    statusErrorCheck e statusServiceUnavailable = false := by
  cases q with
  | error e2 =>
    simp only [serviceTask] at h
    by_cases hcond : (!statusErrorCheck e2 statusServiceUnavailable) = true
    · rw [if_pos hcond] at h
      simp at h
      subst h
      simpa using hcond
    · rw [if_neg hcond] at h
      exact absurd h (by simp)
  | ok members =>
    simp only [serviceTask] at h
    by_cases hcond : (members.length != 0) = true
    · rw [if_pos hcond] at h
      exact absurd h (by simp)
    · rw [if_neg hcond] at h
      exact absurd h (by simp)

lemma serviceTask_error_of_not503 (e : QueryError)
    (h : statusErrorCheck e statusServiceUnavailable = false) :
    serviceTask (Except.error e) = Except.error e := by
  simp [serviceTask, h]

lemma stateLookup_head (localName : String) (localInfo : SystemInformation)
    (rest : List (String × SystemInformation)) :
    stateLookup ((localName, localInfo) :: rest) localName = localInfo := by
  simp [stateLookup, List.find?]

/-! ### Claim theorems -/

/-- Claim C1, counterexample: the delta computation does NOT require every
node to report an empty membership.  With three collected states whose
MicroOVN membership is non-empty on nodes a and b but empty on node c,
MicroOVN still ends up in the missing-services delta, even though nodes a
and b report a non-empty networking membership. -/
theorem networking_delta_counterexample :
    ((exInfo exMembers exMembers exMembers).existingServices
        ServiceType.MicroOVN).length ≠ 0
    ∧ validateAndDelta exServices "a"
        [("a", exInfo exMembers exMembers exMembers),
          ("b", exInfo exMembers exMembers exMembers),
          ("c", exInfo exMembers exMembers [])]
        = Except.ok [(ServiceType.MicroOVN, "24.03")]
    ∧ ServiceType.MicroOVN
        ∈ ([(ServiceType.MicroOVN, "24.03")].map Prod.fst) := by
  refine ⟨by decide, by rfl, by simp⟩

/-- Claim C1, amended: in the service-add delta computation, an optional
backend type (MicroCeph or MicroOVN) is added to the missing-services
delta, with its known version string, if and only if AT LEAST ONE node's
collected state reports an empty membership for that type (rather than the
spec's "every node"); only when every node reports a non-empty membership
is the type excluded. -/
theorem delta_entry_iff_some_node_empty (services : ServiceType → String)
    (localName : String) (state : List (String × SystemInformation))
    (delta : List (ServiceType × String))
    (h : validateAndDelta services localName state = Except.ok delta) :
    (ServiceType.MicroCeph ∈ delta.map Prod.fst
       ↔ ∃ p ∈ state, ((p.2).existingServices ServiceType.MicroCeph).length = 0)
    ∧ (ServiceType.MicroOVN ∈ delta.map Prod.fst
       ↔ ∃ p ∈ state, ((p.2).existingServices ServiceType.MicroOVN).length = 0)
    ∧ (∀ p ∈ delta, p.2 = services p.1) := by
  have hb := validateAndDelta_ok_anyBad_false services localName state delta h
  obtain ⟨d, hd, hdc, hdo, hmem, -⟩ :=
    validateAndDelta_ok_char services localName state hb
  rw [h] at hd
  injection hd with hd
  subst hd
  refine ⟨?_, ?_, fun p hp => (hmem p hp).2⟩
  · rw [mem_keys_iff_deltaFind_ne_none, hdc]
    by_cases hae : anyEmpty ServiceType.MicroCeph (state.map Prod.snd) = true
    · rw [if_pos hae]
      constructor
      · intro _
        obtain ⟨st, hst, hlen⟩ := (anyEmpty_iff _ _).mp hae
        obtain ⟨p, hp, hpeq⟩ := List.mem_map.mp hst
        exact ⟨p, hp, by rw [hpeq]; exact hlen⟩
      · intro _
        simp
    · rw [if_neg hae]
      constructor
      · intro hcontra
        exact absurd rfl hcontra
      · rintro ⟨p, hp, hlen⟩
        exact absurd ((anyEmpty_iff _ _).mpr
          ⟨p.2, List.mem_map.mpr ⟨p, hp, rfl⟩, hlen⟩) hae
  · rw [mem_keys_iff_deltaFind_ne_none, hdo]
    by_cases hae : anyEmpty ServiceType.MicroOVN (state.map Prod.snd) = true
    · rw [if_pos hae]
      constructor
      · intro _
        obtain ⟨st, hst, hlen⟩ := (anyEmpty_iff _ _).mp hae
        obtain ⟨p, hp, hpeq⟩ := List.mem_map.mp hst
        exact ⟨p, hp, by rw [hpeq]; exact hlen⟩
      · intro _
        simp
    · rw [if_neg hae]
      constructor
      · intro hcontra
        exact absurd rfl hcontra
      · rintro ⟨p, hp, hlen⟩
        exact absurd ((anyEmpty_iff _ _).mpr
          ⟨p.2, List.mem_map.mpr ⟨p, hp, rfl⟩, hlen⟩) hae

/-- Witness for the amended claim C1 at a concrete input: one node with an
empty MicroCeph membership puts MicroCeph into the delta. -/
theorem delta_entry_iff_some_node_empty_witness :
    ServiceType.MicroCeph
      ∈ ([(ServiceType.MicroCeph, "18.2")].map Prod.fst) := by
  have h := delta_entry_iff_some_node_empty exServices "a"
    [("a", exInfo exMembers [] exMembers)] [(ServiceType.MicroCeph, "18.2")] rfl
  exact h.1.mpr ⟨("a", exInfo exMembers [] exMembers), by simp, rfl⟩

/-- Claim C9: a successful delta computation only ever contains the
optional backend types MicroCeph and MicroOVN — never LXD or MicroCloud —
and each type appears at most once, no matter how many nodes report it
unclustered. -/
theorem delta_keys_optional_and_unique (services : ServiceType → String)
    (localName : String) (state : List (String × SystemInformation))
    (delta : List (ServiceType × String))
    (h : validateAndDelta services localName state = Except.ok delta) :
    (∀ p ∈ delta, p.1 = ServiceType.MicroCeph ∨ p.1 = ServiceType.MicroOVN)
    ∧ (delta.map Prod.fst).Nodup := by
  have hb := validateAndDelta_ok_anyBad_false services localName state delta h
  obtain ⟨d, hd, -, -, hmem, hnodup⟩ :=
    validateAndDelta_ok_char services localName state hb
  rw [h] at hd
  injection hd with hd
  subst hd
  exact ⟨fun p hp => (hmem p hp).1, hnodup⟩

/-- Witness for claim C9 at a concrete input: two nodes that both lack
MicroCeph and MicroOVN produce a delta with each key exactly once. -/
theorem delta_keys_optional_and_unique_witness :
    (([(ServiceType.MicroCeph, "18.2"), (ServiceType.MicroOVN, "24.03")].map
        Prod.fst).Nodup)
    ∧ (ServiceType.MicroCeph, "18.2").1 ≠ ServiceType.LXD := by
  refine ⟨?_, by decide⟩
  exact (delta_keys_optional_and_unique exServices "a"
    [("a", exInfo exMembers [] []), ("b", exInfo exMembers [] [])]
    [(ServiceType.MicroCeph, "18.2"), (ServiceType.MicroOVN, "24.03")] rfl).2

/-- Claim C7: the consistency-gate-plus-delta computation is deterministic
in the iteration order over the collected states — any two permutations of
the same states yield observationally identical outcomes (same error, or
deltas equal as mappings). -/
theorem validator_deterministic (services : ServiceType → String)
    (localState : SystemInformation) (states1 states2 : List SystemInformation)
    (h : states1.Perm states2) :
    deltaEquiv (resolveDelta services localState states1)
      (resolveDelta services localState states2) := by
  have hbad : anyBad localState states1 = anyBad localState states2 := by
    rw [Bool.eq_iff_iff, anyBad_iff, anyBad_iff]
    constructor
    · rintro ⟨st, hst, hb⟩
      exact ⟨st, h.mem_iff.mp hst, hb⟩
    · rintro ⟨st, hst, hb⟩
      exact ⟨st, h.mem_iff.mpr hst, hb⟩
  have hemp : ∀ t, anyEmpty t states1 = anyEmpty t states2 := by
    intro t
    rw [Bool.eq_iff_iff, anyEmpty_iff, anyEmpty_iff]
    constructor
    · rintro ⟨st, hst, hl⟩
      exact ⟨st, h.mem_iff.mp hst, hl⟩
    · rintro ⟨st, hst, hl⟩
      exact ⟨st, h.mem_iff.mpr hst, hl⟩
  cases hb : anyBad localState states1 with
  | true =>
    have h1 := (validateLoop_char services localState states1 [] false false
      (fun _ => rfl) (fun _ => rfl)).1 hb
    have h2 := (validateLoop_char services localState states2 [] false false
      (fun _ => rfl) (fun _ => rfl)).1 (hbad ▸ hb)
    rw [resolveDelta, resolveDelta, h1, h2]
    rfl
  | false =>
    obtain ⟨d1, hd1, hdc1, hdo1, -, -, hot1⟩ :=
      (validateLoop_char services localState states1 [] false false
        (fun _ => rfl) (fun _ => rfl)).2 hb
    obtain ⟨d2, hd2, hdc2, hdo2, -, -, hot2⟩ :=
      (validateLoop_char services localState states2 [] false false
        (fun _ => rfl) (fun _ => rfl)).2 (hbad ▸ hb)
    rw [resolveDelta, resolveDelta, hd1, hd2]
    intro t
    cases t with
    | MicroCeph =>
      rw [hdc1, hdc2, hemp ServiceType.MicroCeph]
    | MicroOVN =>
      rw [hdo1, hdo2, hemp ServiceType.MicroOVN]
    | LXD =>
      rw [hot1 ServiceType.LXD (by decide) (by decide),
        hot2 ServiceType.LXD (by decide) (by decide)]
    | MicroCloud =>
      rw [hot1 ServiceType.MicroCloud (by decide) (by decide),
        hot2 ServiceType.MicroCloud (by decide) (by decide)]

/-- Witness for claim C7 at a concrete input: swapping two states leaves
the outcome observationally unchanged. -/
theorem validator_deterministic_witness :
    deltaEquiv
      (resolveDelta exServices (exInfo exMembers [] [])
        [exInfo exMembers [] exMembers, exInfo exMembers exMembers []])
      (resolveDelta exServices (exInfo exMembers [] [])
        [exInfo exMembers exMembers [], exInfo exMembers [] exMembers]) :=
  validator_deterministic exServices (exInfo exMembers [] [])
    [exInfo exMembers [] exMembers, exInfo exMembers exMembers []]
    [exInfo exMembers exMembers [], exInfo exMembers [] exMembers]
    (List.Perm.swap _ _ _)

lemma phaseRun_trace_pos_eq (pan psc : Except String Unit)
    (delta : List (ServiceType × String))
    (hv : (deltaVersion delta ServiceType.MicroCeph != "") = true) :
    (phaseRun ⟨Except.ok (), Except.ok (), pan, psc⟩ delta).1
      = Phase.askClustered delta :: Phase.askDisks
          :: (networkStep ⟨Except.ok (), Except.ok (), pan, psc⟩ delta).1 := by
  simp only [phaseRun]
  rw [if_pos hv]

lemma phaseRun_trace_neg_eq (pad pan psc : Except String Unit)
    (delta : List (ServiceType × String))
    (hv : ¬(deltaVersion delta ServiceType.MicroCeph != "") = true) :
    (phaseRun ⟨Except.ok (), pad, pan, psc⟩ delta).1
      = Phase.askClustered delta
          :: (networkStep ⟨Except.ok (), pad, pan, psc⟩ delta).1 := by
  simp only [phaseRun]
  rw [if_neg hv]

/-- Claim C2: if any node's collected state reports zero LXD cluster
members, or a member count different from the local node's, the add
workflow fails with the inconsistent-cluster error and no external phase
(confirmation, disk setup, network setup, cluster join) is invoked — the
trace holds collection events only. -/
theorem inconsistent_lxd_fails_before_setup (services : ServiceType → String)
    (localName : String) (collect : String → Except String SystemInformation)
    (ph : PhaseOutcomes) (localInfo : SystemInformation) (ctr : List Phase)
    (candState : List (String × SystemInformation))
    (h1 : collect localName = Except.ok localInfo)
    (h2 : collectLoop collect (candidateNames localName localInfo)
            = (ctr, Except.ok candState))
    (h3 : ∃ p ∈ (localName, localInfo) :: candState,
            ((p.2).existingServices ServiceType.LXD).length = 0
          ∨ ((p.2).existingServices ServiceType.LXD).length
              ≠ (localInfo.existingServices ServiceType.LXD).length) :
    (runServiceAdd services localName collect ph).2
        = Except.error inconsistentClusterError
    ∧ ∀ e ∈ (runServiceAdd services localName collect ph).1,
        ∃ n, e = Phase.collect n := by
  obtain ⟨p, hp, hbad⟩ := h3
  have hloc := stateLookup_head localName localInfo candState
  have hanyBad : anyBad
      (stateLookup ((localName, localInfo) :: candState) localName)
      (((localName, localInfo) :: candState).map Prod.snd) = true := by
    rw [anyBad_iff]
    refine ⟨p.2, List.mem_map.mpr ⟨p, hp, rfl⟩, ?_⟩
    rw [lxdInconsistent_iff, hloc]
    rcases hbad with hz | hne
    · exact Or.inr hz
    · exact Or.inl hne
  have hval := validateAndDelta_error_of_bad services localName
    ((localName, localInfo) :: candState) hanyBad
  have hrun := runServiceAdd_validate_error services localName collect ph
    localInfo ctr candState inconsistentClusterError h1 h2 hval
  rw [hrun]
  refine ⟨rfl, ?_⟩
  intro e he
  rcases List.mem_cons.mp he with hh | hh
  · exact ⟨localName, hh⟩
  · exact collectLoop_trace_collect collect (candidateNames localName localInfo)
      e (by rw [h2]; exact hh)

/-- Witness for claim C2 at a concrete input: a node with an empty LXD
membership makes the add workflow fail with the inconsistent-cluster
error. -/
theorem inconsistent_lxd_fails_before_setup_witness :
    (runServiceAdd exServices "a"
        (fun _ => Except.ok (exInfo [] exMembers exMembers))
        ⟨Except.ok (), Except.ok (), Except.ok (), Except.ok ()⟩).2
      = Except.error inconsistentClusterError :=
  (inconsistent_lxd_fails_before_setup exServices "a"
    (fun _ => Except.ok (exInfo [] exMembers exMembers))
    ⟨Except.ok (), Except.ok (), Except.ok (), Except.ok ()⟩
    (exInfo [] exMembers exMembers)
    [Phase.collect "b", Phase.collect "c"]
    [("b", exInfo [] exMembers exMembers), ("c", exInfo [] exMembers exMembers)]
    rfl rfl
    ⟨("a", exInfo [] exMembers exMembers), List.mem_cons_self _ _,
      Or.inl rfl⟩).1

/-- Claim C4: when the collected states pass the LXD consistency gate but
the computed missing-services delta is empty, the add workflow fails with
the already-configured error and invokes no confirmation or setup phase —
the trace holds collection events only. -/
theorem empty_delta_already_configured (services : ServiceType → String)
    (localName : String) (collect : String → Except String SystemInformation)
    (ph : PhaseOutcomes) (localInfo : SystemInformation) (ctr : List Phase)
    (candState : List (String × SystemInformation))
    (h1 : collect localName = Except.ok localInfo)
    (h2 : collectLoop collect (candidateNames localName localInfo)
            = (ctr, Except.ok candState))
    (h3 : validateAndDelta services localName
            ((localName, localInfo) :: candState) = Except.ok []) :
    (runServiceAdd services localName collect ph).2
        = Except.error alreadyConfiguredError
    ∧ ∀ e ∈ (runServiceAdd services localName collect ph).1,
        ∃ n, e = Phase.collect n := by
  have hrun := runServiceAdd_empty_delta services localName collect ph
    localInfo ctr candState h1 h2 h3
  rw [hrun]
  refine ⟨rfl, ?_⟩
  intro e he
  rcases List.mem_cons.mp he with hh | hh
  · exact ⟨localName, hh⟩
  · exact collectLoop_trace_collect collect (candidateNames localName localInfo)
      e (by rw [h2]; exact hh)

/-- Witness for claim C4 at a concrete input: three nodes with every
backend already clustered produce an empty delta and the
already-configured error. -/
theorem empty_delta_already_configured_witness :
    (runServiceAdd exServices "a"
        (fun _ => Except.ok (exInfo exMembers exMembers exMembers))
        ⟨Except.ok (), Except.ok (), Except.ok (), Except.ok ()⟩).2
      = Except.error alreadyConfiguredError :=
  (empty_delta_already_configured exServices "a"
    (fun _ => Except.ok (exInfo exMembers exMembers exMembers))
    ⟨Except.ok (), Except.ok (), Except.ok (), Except.ok ()⟩
    (exInfo exMembers exMembers exMembers)
    [Phase.collect "b", Phase.collect "c"]
    [("b", exInfo exMembers exMembers exMembers),
      ("c", exInfo exMembers exMembers exMembers)]
    rfl rfl rfl).1

/-- Claim C3: in every run of the add workflow whose delta contains both
the storage (MicroCeph) and networking (MicroOVN) type, the external
phases appear in the fixed order confirmation → disk setup → network
setup → cluster join: the phase trace is a sublist of that canonical
order, confirmation (handed the delta) comes first, and on the all-success
path with non-empty versions the trace is exactly the canonical order. -/
theorem phases_in_fixed_order (services : ServiceType → String)
    (localName : String) (collect : String → Except String SystemInformation)
    (ph : PhaseOutcomes) (localInfo : SystemInformation) (ctr : List Phase)
    (candState : List (String × SystemInformation))
    (delta : List (ServiceType × String))
    (h1 : collect localName = Except.ok localInfo)
    (h2 : collectLoop collect (candidateNames localName localInfo)
            = (ctr, Except.ok candState))
    (h3 : validateAndDelta services localName
            ((localName, localInfo) :: candState) = Except.ok delta)
    (hceph : ServiceType.MicroCeph ∈ delta.map Prod.fst)
    (hovn : ServiceType.MicroOVN ∈ delta.map Prod.fst) :
    (runServiceAdd services localName collect ph).1
        = (Phase.collect localName :: ctr) ++ (phaseRun ph delta).1
    ∧ ((phaseRun ph delta).1).Sublist
        [Phase.askClustered delta, Phase.askDisks, Phase.askNetwork,
          Phase.setupCluster]
    ∧ ((phaseRun ph delta).1).head? = some (Phase.askClustered delta)
    ∧ (ph.askClustered = Except.ok () → ph.askDisks = Except.ok () →
        ph.askNetwork = Except.ok () →
        deltaVersion delta ServiceType.MicroCeph ≠ "" →
        deltaVersion delta ServiceType.MicroOVN ≠ "" →
        (phaseRun ph delta).1 = [Phase.askClustered delta, Phase.askDisks,
          Phase.askNetwork, Phase.setupCluster]) := by
  have hne : delta ≠ [] := by
    intro hnil
    rw [hnil] at hceph
    exact absurd hceph (by simp)
  have hrun := runServiceAdd_phases services localName collect ph localInfo ctr
    candState delta h1 h2 h3 hne
  refine ⟨by simp [hrun], phaseRun_trace_sublist ph delta,
    phaseRun_trace_head ph delta, ?_⟩
  intro hac had han hcv hov
  exact phaseRun_trace_full ph delta hac had han (by simpa using hcv)
    (by simpa using hov)

/-- Witness for claim C3 at a concrete input: three nodes lacking both
MicroCeph and MicroOVN run collection, then confirmation, disk setup,
network setup and the cluster join, in that order. -/
theorem phases_in_fixed_order_witness :
    (runServiceAdd exServices "a"
        (fun _ => Except.ok (exInfo exMembers [] []))
        ⟨Except.ok (), Except.ok (), Except.ok (), Except.ok ()⟩).1
      = [Phase.collect "a", Phase.collect "b", Phase.collect "c",
          Phase.askClustered
            [(ServiceType.MicroCeph, "18.2"), (ServiceType.MicroOVN, "24.03")],
          Phase.askDisks, Phase.askNetwork, Phase.setupCluster] := by
  have h := phases_in_fixed_order exServices "a"
    (fun _ => Except.ok (exInfo exMembers [] []))
    ⟨Except.ok (), Except.ok (), Except.ok (), Except.ok ()⟩
    (exInfo exMembers [] [])
    [Phase.collect "b", Phase.collect "c"]
    [("b", exInfo exMembers [] []), ("c", exInfo exMembers [] [])]
    [(ServiceType.MicroCeph, "18.2"), (ServiceType.MicroOVN, "24.03")]
    rfl rfl rfl (by simp) (by simp)
  rw [h.1, h.2.2.2 rfl rfl rfl (by decide) (by decide)]
  rfl

/-- Claim C6: the local node's state is stored under the local name, every
candidate's state is collected and stored, and only then does validation
run — the run's trace starts with all the collection events and its
remainder contains no collection event. -/
theorem collection_precedes_validation (services : ServiceType → String)
    (localName : String) (collect : String → Except String SystemInformation)
    (ph : PhaseOutcomes) (localInfo : SystemInformation) (ctr : List Phase)
    (candState : List (String × SystemInformation))
    (h1 : collect localName = Except.ok localInfo)
    (h2 : collectLoop collect (candidateNames localName localInfo)
            = (ctr, Except.ok candState)) :
    stateLookup ((localName, localInfo) :: candState) localName = localInfo
    ∧ (∀ n ∈ candidateNames localName localInfo,
        ∃ info, collect n = Except.ok info
          ∧ (n, info) ∈ (localName, localInfo) :: candState)
    ∧ ∃ tail, (runServiceAdd services localName collect ph).1
          = (Phase.collect localName :: ctr) ++ tail
        ∧ (∀ e ∈ Phase.collect localName :: ctr, ∃ n, e = Phase.collect n)
        ∧ (∀ e ∈ tail, ∀ n, e ≠ Phase.collect n) := by
  have hcol : ∀ e ∈ Phase.collect localName :: ctr, ∃ n, e = Phase.collect n := by
    intro e he
    rcases List.mem_cons.mp he with hh | hh
    · exact ⟨localName, hh⟩
    · exact collectLoop_trace_collect collect (candidateNames localName localInfo)
        e (by rw [h2]; exact hh)
  refine ⟨stateLookup_head localName localInfo candState, ?_, ?_⟩
  · intro n hn
    obtain ⟨info, hi, hmem⟩ :=
      collectLoop_ok_mem collect (candidateNames localName localInfo)
        ctr candState h2 n hn
    exact ⟨info, hi, List.mem_cons_of_mem _ hmem⟩
  · cases hval : validateAndDelta services localName
        ((localName, localInfo) :: candState) with
    | error e =>
      refine ⟨[], ?_, hcol, by simp⟩
      rw [runServiceAdd_validate_error services localName collect ph localInfo
        ctr candState e h1 h2 hval]
      simp
    | ok delta =>
      by_cases hnil : delta = []
      · subst hnil
        refine ⟨[], ?_, hcol, by simp⟩
        rw [runServiceAdd_empty_delta services localName collect ph localInfo
          ctr candState h1 h2 hval]
        simp
      · refine ⟨(phaseRun ph delta).1, ?_, hcol, ?_⟩
        · rw [runServiceAdd_phases services localName collect ph localInfo
            ctr candState delta h1 h2 hval hnil]
        · exact phaseRun_no_collect ph delta

/-- Witness for claim C6 at a concrete input: the local node's collected
state is stored under the local name in the map the validator reads. -/
theorem collection_precedes_validation_witness :
    stateLookup [("a", exInfo exMembers [] []),
        ("b", exInfo exMembers [] []), ("c", exInfo exMembers [] [])] "a"
      = exInfo exMembers [] [] :=
  (collection_precedes_validation exServices "a"
    (fun _ => Except.ok (exInfo exMembers [] []))
    ⟨Except.ok (), Except.ok (), Except.ok (), Except.ok ()⟩
    (exInfo exMembers [] [])
    [Phase.collect "b", Phase.collect "c"]
    [("b", exInfo exMembers [] []), ("c", exInfo exMembers [] [])]
    rfl rfl).1

/-- Claim C10: once confirmation has succeeded, disk setup runs if and
only if the delta maps MicroCeph to a non-empty version string, network
setup runs if and only if the delta maps MicroOVN to a non-empty version
string, and confirmation itself is always handed the full delta —
including entries carrying an empty version, whose setup is skipped. -/
theorem setup_iff_nonempty_version (ph : PhaseOutcomes)
    (delta : List (ServiceType × String))
    (hac : ph.askClustered = Except.ok ()) (had : ph.askDisks = Except.ok ()) :
    (Phase.askDisks ∈ (phaseRun ph delta).1
        ↔ deltaVersion delta ServiceType.MicroCeph ≠ "")
    ∧ (Phase.askNetwork ∈ (phaseRun ph delta).1
        ↔ deltaVersion delta ServiceType.MicroOVN ≠ "")
    ∧ Phase.askClustered delta ∈ (phaseRun ph delta).1 := by
  obtain ⟨pac, pad, pan, psc⟩ := ph
  simp at hac had
  subst hac had
  by_cases hv : (deltaVersion delta ServiceType.MicroCeph != "") = true
  · rw [phaseRun_trace_pos_eq pan psc delta hv]
    refine ⟨?_, ?_, by simp⟩
    · have hv2 : deltaVersion delta ServiceType.MicroCeph ≠ "" := by
        simpa using hv
      simp [hv2]
    · simp [networkStep_askNetwork_mem]
  · rw [phaseRun_trace_neg_eq (Except.ok ()) pan psc delta hv]
    have hv2 : deltaVersion delta ServiceType.MicroCeph = "" := by
      simpa using hv
    refine ⟨?_, ?_, by simp⟩
    · constructor
      · intro hmem
        rcases List.mem_cons.mp hmem with hh | hh
        · exact absurd hh (by simp)
        · exact absurd hh (networkStep_no_askDisks _ _)
      · intro hne
        exact absurd hv2 hne
    · simp [networkStep_askNetwork_mem]

/-- Witness for claim C10 at a concrete input: a delta entry mapping
MicroCeph to the empty version string reaches confirmation but the disk
setup is skipped, while MicroOVN with a non-empty version still gets its
network setup. -/
theorem setup_iff_nonempty_version_witness :
    Phase.askDisks ∉ (phaseRun
        ⟨Except.ok (), Except.ok (), Except.ok (), Except.ok ()⟩
        [(ServiceType.MicroCeph, ""), (ServiceType.MicroOVN, "24.03")]).1
    ∧ Phase.askNetwork ∈ (phaseRun
        ⟨Except.ok (), Except.ok (), Except.ok (), Except.ok ()⟩
        [(ServiceType.MicroCeph, ""), (ServiceType.MicroOVN, "24.03")]).1
    ∧ Phase.askClustered [(ServiceType.MicroCeph, ""), (ServiceType.MicroOVN, "24.03")]
        ∈ (phaseRun ⟨Except.ok (), Except.ok (), Except.ok (), Except.ok ()⟩
            [(ServiceType.MicroCeph, ""), (ServiceType.MicroOVN, "24.03")]).1 := by
  have h := setup_iff_nonempty_version
    ⟨Except.ok (), Except.ok (), Except.ok (), Except.ok ()⟩
    [(ServiceType.MicroCeph, ""), (ServiceType.MicroOVN, "24.03")] rfl rfl
  refine ⟨?_, ?_, h.2.2⟩
  · intro hmem
    exact (h.1.mp hmem) rfl
  · exact h.2.1.mpr (by decide)

/-- Claim C5: in the listing workflow's best-effort aggregation, a
membership query failing with a 503 (service unavailable) status error
contributes an empty result under its service key and does not fail the
aggregate call, while any non-503 query error makes the aggregate call
return an error (itself a non-503 one). -/
theorem bestEffort_listing_aggregation
    (tasks : List (ServiceType × Except QueryError (List ClusterMember))) :
    ((∀ p ∈ tasks, queryTolerated p.2) →
      ∃ m, listAggregate tasks = Except.ok m
        ∧ ∀ p ∈ tasks, ∀ e, p.2 = Except.error e
            → (p.1, ([] : List (List String))) ∈ m)
    ∧ ((∃ p ∈ tasks, ∃ e, p.2 = Except.error e
          ∧ statusErrorCheck e statusServiceUnavailable = false) →
      ∃ e, listAggregate tasks = Except.error e
        ∧ statusErrorCheck e statusServiceUnavailable = false) := by
  induction tasks with
  | nil =>
    constructor
    · intro _
      exact ⟨[], rfl, by simp⟩
    · rintro ⟨p, hp, -⟩
      exact absurd hp (List.not_mem_nil p)
  | cons hd rest ih =>
    obtain ⟨t, q⟩ := hd
    constructor
    · intro htol
      have hq : queryTolerated q := htol (t, q) (List.mem_cons_self _ _)
      obtain ⟨data, hdata, hempty⟩ := serviceTask_tolerated q hq
      obtain ⟨m, hm, hmem⟩ := ih.1 (fun p hp => htol p (List.mem_cons_of_mem _ hp))
      refine ⟨(t, data) :: m, ?_, ?_⟩
      · simp only [listAggregate, hdata, hm]
      · intro p hp e hpe
        rcases List.mem_cons.mp hp with hh | hh
        · subst hh
          have hd0 : data = [] := hempty e hpe
          rw [hd0]
          exact List.mem_cons_self _ _
        · exact List.mem_cons_of_mem _ (hmem p hh e hpe)
    · rintro ⟨p, hp, e, hpe, h503⟩
      rcases List.mem_cons.mp hp with hh | hh
      · subst hh
        have hqe : q = Except.error e := hpe
        have hq : serviceTask q = Except.error e := by
          rw [hqe]
          exact serviceTask_error_of_not503 e h503
        refine ⟨e, ?_, h503⟩
        simp only [listAggregate, hq]
      · cases hst : serviceTask q with
        | error e2 =>
          refine ⟨e2, ?_, serviceTask_error_not503 q e2 hst⟩
          simp only [listAggregate, hst]
        | ok data =>
          obtain ⟨e2, he2, h5032⟩ := ih.2 ⟨p, hh, e, hpe, h503⟩
          refine ⟨e2, ?_, h5032⟩
          simp only [listAggregate, hst, he2]

/-- Witness for claim C5 at a concrete input: one MicroCeph task failing
with a 503 status error yields a successful aggregate with an empty row
list under the MicroCeph key. -/
theorem bestEffort_listing_aggregation_witness :
    ∃ m, listAggregate [(ServiceType.MicroCeph,
        Except.error ⟨some 503, "service unavailable"⟩)] = Except.ok m
      ∧ (ServiceType.MicroCeph, ([] : List (List String))) ∈ m := by
  obtain ⟨m, hm, hmem⟩ := (bestEffort_listing_aggregation
    [(ServiceType.MicroCeph,
      Except.error ⟨some 503, "service unavailable"⟩)]).1
    (by
      intro p hp
      simp at hp
      rw [hp]
      exact rfl)
  exact ⟨m, hm, hmem _ (List.mem_cons_self _ _) _ rfl⟩

end MicroCloud
